import Mathlib

/-!
Shallow embedding of `src/common/models/access-token.js` from
deltasource/loopback-lite, and proofs about its behaviour.

Conventions of the embedding:
* JavaScript `Date` values are represented by their `getTime()` result in
  epoch milliseconds (`Int`); a `created` attribute that is not a Date
  (no `getTime` function) is `none`.
* A JavaScript number used as `ttl` is an `Int`; an absent (`undefined`)
  `ttl` is `none`.
* Node-style callbacks are modelled by recording, in order, every
  invocation of the callback that the function performs; this keeps the
  double-invocation performed by `validate` when `principalType` cannot
  be resolved observable (the code schedules `cb(null, false)` and then
  falls through to the normal computation).
* `Buffer.from(s, 'base64').toString('utf8')` is Node standard library,
  external to the repository; it is modelled as an explicit function
  parameter `decode64`.
-/

namespace LoopbackLite

/-- A JavaScript value as observed by the `typeof id === 'string'` checks
in `getIdForRequest`: either a string or some non-string value. -/
inductive JSVal where
  | str (s : String)
  | other
deriving DecidableEq, Repr

/-- The options object accepted by `AccessToken.getIdForRequest`.
`none` for an `Option Bool` field models the JS property being absent
(`undefined`). -/
structure TokenLookupOptions where
  params : List String := []
  headers : List String := []
  cookies : List String := []
  searchDefaultTokenKeys : Option Bool := none
  bearerTokenBase64Encoded : Option Bool := none
deriving DecidableEq, Repr

/-- The request-like object consumed by `getIdForRequest`: `req.params`,
`req.body`, `req.query` and `req.header(name)` as partial maps from names
to JS values, and `req.signedCookies` which may be absent entirely
(`if (req.signedCookies)` guards the cookie loop). An absent
`req.params`/`req.body`/`req.query` object behaves exactly like an empty
map in the source, so those three are collapsed to total functions. -/
structure Req where
  params : String → Option JSVal
  body : String → Option JSVal
  query : String → Option JSVal
  header : String → Option JSVal
  signedCookies : Option (String → Option JSVal)

/-- Lines 112-115: the replacement for the deprecated `req.param()` —
the first defined value among `req.params[name]`, `req.body[name]`,
`req.query[name]`. -/
def lookupParamValue (req : Req) (name : String) : Option JSVal :=
  match req.params name with
  | some v => some v
  | none =>
    match req.body name with
    | some v => some v
    | none => req.query name

/-- Lines 109-120: the params loop. For each name, take the first defined
value among params/body/query; return it when it is a string, otherwise
move on to the next name. -/
def firstParamMatch (req : Req) : List String → Option String
  | [] => none
  | p :: rest =>
    match lookupParamValue req p with
    | some (.str s) => some s
    | _ => firstParamMatch req rest

/-- Character-level model of JS `String.prototype.substring(n)`. JS indexes
UTF-16 code units; on the ASCII data these claims involve, code units and
characters coincide. -/
def strDrop (s : String) (n : Nat) : String := ⟨s.data.drop n⟩

/-- Line 133: `id.indexOf('Bearer ') === 0`. -/
def isBearer (s : String) : Bool := s.data.take 7 == "Bearer ".data

/-- Line 140: the regex test `/^Basic /i`. -/
def isBasic (s : String) : Bool := (s.data.take 6).map Char.toLower == "basic ".data

/-- A JS regex line terminator: `\n`, `\r`, U+2028 or U+2029. The dot in a
JS regex without the `s` flag matches any character except these. -/
def isLineTerm (c : Char) : Bool :=
  c = '\n' || c = '\r' || c = '\u2028' || c = '\u2029'

/-- Line 150: `/^([^:]*):(.*)$/.exec(id)`. The first group can only end at
the first colon (it cannot contain one), the dot excludes line
terminators, and `$` without the `m` flag anchors at end of input, so the
regex matches exactly when the string has a colon and no line terminator
follows the first colon: then `parts[1]` is the part before it and
`parts[2]` the rest. `none` models the regex failing to match (`parts`
null), in which case the caller keeps the whole string. -/
def breakAtColon : List Char → Option (List Char × List Char)
  | [] => none
  | c :: cs =>
    if c = ':' then
      if cs.any isLineTerm then none else some ([], cs)
    else
      match breakAtColon cs with
      | some (a, b) => some (c :: a, b)
      | none => none

/-- Lines 131-155: processing of one string-valued header. Returns `none`
exactly when the value is the empty string (the `continue`); otherwise
returns the id that the loop body would `return`. String lengths are
character counts (`parts[2].length > parts[1].length`). -/
def processHeaderValue (decode64 : String → String) (opts : TokenLookupOptions)
    (id : String) : Option String :=
  if id = "" then none
  else if isBearer id then
    let rest := strDrop id 7
    some (if opts.bearerTokenBase64Encoded = some true then decode64 rest else rest)
  else if isBasic id then
    let s := decode64 (strDrop id 6)
    match breakAtColon s.data with
    | some (a, b) => some (if b.length > a.length then ⟨b⟩ else ⟨a⟩)
    | none => some s
  else some id

/-- Lines 122-157: the headers loop. Non-string header values are skipped;
a string value is processed by `processHeaderValue`, and only the
empty string continues the search. -/
def firstHeaderMatch (decode64 : String → String) (opts : TokenLookupOptions)
    (req : Req) : List String → Option String
  | [] => none
  | h :: rest =>
    match req.header h with
    | some (.str s) =>
      match processHeaderValue decode64 opts s with
      | some v => some v
      | none => firstHeaderMatch decode64 opts req rest
    | _ => firstHeaderMatch decode64 opts req rest

/-- Lines 159-167: the signed-cookies loop. -/
def firstCookieMatch (cookies : String → Option JSVal) : List String → Option String
  | [] => none
  | c :: rest =>
    match cookies c with
    | some (.str s) => some s
    | _ => firstCookieMatch cookies rest

/-- Lines 103-107: default token keys are appended unless
`searchDefaultTokenKeys` is exactly `false`. -/
def effectiveParams (opts : TokenLookupOptions) : List String :=
  if opts.searchDefaultTokenKeys = some false then opts.params
  else opts.params ++ ["access_token"]

def effectiveHeaders (opts : TokenLookupOptions) : List String :=
  if opts.searchDefaultTokenKeys = some false then opts.headers
  else opts.headers ++ ["X-Access-Token", "authorization"]

def effectiveCookies (opts : TokenLookupOptions) : List String :=
  if opts.searchDefaultTokenKeys = some false then opts.cookies
  else opts.cookies ++ ["access_token", "authorization"]

/-- Model of `AccessToken.getIdForRequest(req, options)`, lines 94-169.
Here `none` models the `return null`. -/
def getIdForRequest (decode64 : String → String) (req : Req)
    (opts : TokenLookupOptions) : Option String :=
  match firstParamMatch req (effectiveParams opts) with
  | some id => some id
  | none =>
    match firstHeaderMatch decode64 opts req (effectiveHeaders opts) with
    | some id => some id
    | none =>
      match req.signedCookies with
      | some sc => firstCookieMatch sc (effectiveCookies opts)
      | none => none

/-- A principal model as `validate` observes it: only the truthiness of
`settings.allowEternalTokens` matters (`!!(User && User.settings.allowEternalTokens)`). -/
structure UserModel where
  allowEternalTokens : Bool
deriving DecidableEq, Repr

/-- An AccessToken record. `created` is `getTime()` in epoch milliseconds
(`none` when the attribute is not a Date), `ttl` is in seconds
(`none` when absent). -/
structure Token where
  id : Option String := none
  created : Option Int := none
  ttl : Option Int := none
  principalType : Option String := none
deriving DecidableEq, Repr

/-- The ambient state `validate` reads: the target model of the `user` relation
(`AccessToken.relations.user && userRelation.modelTo`, `none` when the
relation is not set up or has no target), the model registry used by
`AccessToken.registry.findModel`, and `Date.now()` in milliseconds. -/
structure ValidateEnv where
  userModel : Option UserModel
  registry : List (String × UserModel)
  now : Int
deriving DecidableEq, Repr

/-- Model of `registry.findModel(name)`; `none` models `undefined`. -/
def findModel (reg : List (String × UserModel)) (name : String) : Option UserModel :=
  (reg.find? (fun p => p.1 == name)).map (fun p => p.2)

/-- Line 244: `!!(User && User.settings.allowEternalTokens)` computed from
the `user` relation (before any `principalType` re-resolution). -/
def eternalTokensAllowed (env : ValidateEnv) : Bool :=
  match env.userModel with
  | some u => u.allowEternalTokens
  | none => false

/-- Lines 250-257: the whole block is guarded by the JS truthiness test
`if (this.principalType)` — falsy both when the attribute is absent and
when it is the empty string — and the early `cb(null, false)` fires when
the guarded `registry.findModel` lookup then returns nothing. -/
def unresolvedPrincipal (env : ValidateEnv) (tok : Token) : Bool :=
  match tok.principalType with
  | some p => p != "" && (findModel env.registry p).isNone
  | none => false

/-- Line 261: `(now - created) / 1000`, exact rational arithmetic. -/
def elapsedSeconds (env : ValidateEnv) (created : Int) : ℚ :=
  (((env.now : ℚ)) - ((created : ℚ))) / 1000

/-- Lines 263-266: `isEternalToken ? eternalTokensAllowed : elapsedSeconds < secondsToLive`. -/
def mainIsValid (env : ValidateEnv) (created ttl : Int) : Bool :=
  if ttl = -1 then eternalTokensAllowed env
  else decide (elapsedSeconds env created < (ttl : ℚ))

/-- One invocation of the Node-style callback `cb`:
`cb(e)` with an error, or `cb(null, isValid)`. -/
inductive CbCall where
  | err (msg : String)
  | ok (isValid : Bool)
deriving DecidableEq, Repr

/-- Everything observable about one run of `validate`: the callback
invocations in order, and whether `this.destroy` was called. -/
structure ValidateResult where
  calls : List CbCall
  destroyed : Bool
deriving DecidableEq, Repr

/-- Model of `AccessToken.prototype.validate(cb)`, lines 232-282.

The failed `assert`s (lines 234-246) throw, are caught at line 277, and
deliver the error to `cb`; each error is identified by its assertion
message. The `ttl !== 0` assert precedes the `ttl` truthiness assert, but
an absent `ttl` passes the former and fails the latter, so matching
absence first is behaviourally identical. When `principalType` is present
but unresolvable, `cb(null, false)` is scheduled on the next tick and the
function falls through (there is no `return`) to the expiry computation,
which invokes `cb` a second time; `this.destroy` is modelled as
succeeding, so its callback delivers `cb(null, false)`. -/
def validate (env : ValidateEnv) (tok : Token) : ValidateResult :=
  match tok.created with
  | none => ⟨[.err "token.created must be a valid Date"], false⟩
  | some c =>
    match tok.ttl with
    | none => ⟨[.err "token.ttl must exist"], false⟩
    | some t =>
      if t = 0 then ⟨[.err "token.ttl must be not be 0"], false⟩
      else if !(eternalTokensAllowed env) && decide (t < -1) then
        ⟨[.err "token.ttl must be >= -1"], false⟩
      else
        let pre : List CbCall := if unresolvedPrincipal env tok then [.ok false] else []
        if mainIsValid env c t then ⟨pre ++ [.ok true], false⟩
        else ⟨pre ++ [.ok false], true⟩

/-- Computes `true` when some callback invocation delivered an error. -/
def erroredB (r : ValidateResult) : Bool :=
  r.calls.any (fun c => match c with | .err _ => true | .ok _ => false)

/-- One invocation of the callback of `AccessToken.resolve`: an error
(message, optional `code`, optional `status`), a resolved token, or the
bare `cb()` used when no token record exists. -/
inductive ResolveCall where
  | err (msg : String) (code : Option String) (status : Option Nat)
  | ok (tok : Token)
  | noToken
deriving DecidableEq, Repr

/-- Lines 189-192: the `Invalid Access Token` error with
`status = statusCode = 401` and `code = 'INVALID_TOKEN'`. -/
def invalidTokenError : ResolveCall :=
  .err "Invalid Access Token" (some "INVALID_TOKEN") (some 401)

/-- Lines 183-194: how `resolve` forwards each outcome of `validate`. -/
def resolveHandler (tok : Token) : CbCall → ResolveCall
  | .err m => .err m none none
  | .ok true => .ok tok
  | .ok false => invalidTokenError

/-- Model of `this.findById(id, ...)` against a store of token records keyed
by id; the store itself is modelled as error-free. -/
def findById (store : List (String × Token)) (id : String) : Option Token :=
  (store.find? (fun p => p.1 == id)).map (fun p => p.2)

/-- Model of `AccessToken.resolve(id, cb)`, lines 178-199, as the ordered
list of callback invocations it performs. -/
def resolve (env : ValidateEnv) (store : List (String × Token)) (id : String) :
    List ResolveCall :=
  match findById store id with
  | none => [.noToken]
  | some tok => (validate env tok).calls.map (resolveHandler tok)

/-- The model instance seen by the before-save hook: the `id` attribute
(`none` = absent) and all other attributes, kept opaque. -/
structure TokenInstance where
  id : Option String := none
  attrs : List (String × String) := []
deriving DecidableEq, Repr

/-- The hook context: `ctx.instance` is present for a full save and absent
for a partial update. -/
structure SaveCtx where
  inst : Option TokenInstance
deriving DecidableEq, Repr

/-- JS truthiness of the `id` attribute (`ctx.instance.id`): an absent id
and the empty string are both falsy. -/
def idTruthy : Option String → Bool
  | none => false
  | some s => s != ""

/-- The `before save` observer, lines 68-79, with `genId` the fresh id the
(successful) `createAccessTokenId` call produces. -/
def beforeSave (genId : String) (ctx : SaveCtx) : SaveCtx :=
  match ctx.inst with
  | none => ctx
  | some i =>
    if idTruthy i.id then ctx
    else ⟨some { i with id := some genId }⟩

/-! Concrete records used to exercise the definitions at specific inputs. -/

def envC1 : ValidateEnv := ⟨none, [], 5000⟩

def tokC1 : Token := { id := some "t1", created := some 0, ttl := some 10 }

def envC2 : ValidateEnv := ⟨none, [], 0⟩

def tokC2 : Token := { id := some "t2", created := some 0, ttl := some (-2) }

def envC3a : ValidateEnv := ⟨some ⟨true⟩, [], 0⟩

def tokC3a : Token := { id := some "t3a", created := some 0, ttl := some (-1) }

def envC3b : ValidateEnv := ⟨none, [], 0⟩

def tokC3b : Token := { id := some "t3b", created := some 0, ttl := some (-5) }

def envC4 : ValidateEnv := ⟨none, [], 20000⟩

def envC4b : ValidateEnv := ⟨none, [], 5000⟩

def tokC4 : Token := { id := some "t4", created := some 0, ttl := some 10 }

def envC5 : ValidateEnv := ⟨none, [], 5000⟩

def tokC5good : Token := { id := some "good", created := some 0, ttl := some 10 }

def tokC5bad : Token := { id := some "bad", created := some (-20000), ttl := some 10 }

def storeC5 : List (String × Token) := [("good", tokC5good), ("bad", tokC5bad)]

def envC6 : ValidateEnv := ⟨none, [], 5000⟩

def tokC6 : Token :=
  { id := some "t6", created := some 0, ttl := some 10, principalType := some "Customer" }

def reqC7 : Req :=
  ⟨fun n => if n = "access_token" then some .other else none,
   fun n => if n = "access_token" then some (.str "tok") else none,
   fun _ => none, fun _ => none, none⟩

def reqC7w : Req :=
  ⟨fun _ => none, fun _ => none,
   fun n => if n = "access_token" then some (.str "w1") else none,
   fun _ => none, none⟩

def reqC8 : Req :=
  ⟨fun _ => none, fun _ => none, fun _ => none,
   fun n => if n = "authorization" then some (.str "Bearer dG9rZW4=") else none, none⟩

def dC9 : String → String := fun s => if s = "dG9rOmEyYjJjMw==" then "tok:a2b2c3" else s

def dC9x : String → String := fun s => if s = "YTpiYgpj" then "a:bb\nc" else s

def reqC9 : Req :=
  ⟨fun _ => none, fun _ => none, fun _ => none,
   fun n => if n = "X-Access-Token" then some (.str "") else none, none⟩

def instC10 : TokenInstance := ⟨some "", [("userId", "u1")]⟩

/-! Helper lemmas shared between the claim theorems. -/

/-- The exact rational comparison of line 266 agrees with an integer
comparison in milliseconds. -/
theorem elapsed_lt_iff (env : ValidateEnv) (c t : Int) :
    elapsedSeconds env c < (t : ℚ) ↔ env.now - c < t * 1000 := by
  unfold elapsedSeconds
  rw [div_lt_iff₀ (by norm_num : (0:ℚ) < 1000)]
  constructor
  · intro h
    exact_mod_cast h
  · intro h
    exact_mod_cast h

/-- Restatement of `mainIsValid` with the comparison over `Int`, which the
kernel can evaluate on concrete inputs. -/
theorem mainIsValid_eq (env : ValidateEnv) (c t : Int) :
    mainIsValid env c t =
      (if t = -1 then eternalTokensAllowed env
       else decide (env.now - c < t * 1000)) := by
  unfold mainIsValid
  rcases eq_or_ne t (-1) with h | h
  · simp [h]
  · simp only [h, if_false, if_neg h]
    congr 1
    exact propext (elapsed_lt_iff env c t)

/-- When the assertions pass, `validate` reaches the expiry computation. -/
theorem validate_main_eq (env : ValidateEnv) (i pt : Option String)
    (c t : Int) (h0 : t ≠ 0) (h1 : -1 ≤ t ∨ eternalTokensAllowed env = true) :
    validate env ⟨i, some c, some t, pt⟩ =
      if mainIsValid env c t
      then ⟨(if unresolvedPrincipal env ⟨i, some c, some t, pt⟩
              then [CbCall.ok false] else []) ++ [.ok true], false⟩
      else ⟨(if unresolvedPrincipal env ⟨i, some c, some t, pt⟩
              then [CbCall.ok false] else []) ++ [.ok false], true⟩ := by
  have hcond : (!(eternalTokensAllowed env) && decide (t < -1)) = false := by
    rcases h1 with h | h
    · simp [not_lt.mpr h]
    · simp [h]
  simp [validate, h0, hcond]

/-- When the assertions pass, the final callback invocation delivers
exactly the result of the expiry computation. -/
theorem validate_getLast (env : ValidateEnv) (i pt : Option String)
    (c t : Int) (h0 : t ≠ 0) (h1 : -1 ≤ t ∨ eternalTokensAllowed env = true) :
    (validate env ⟨i, some c, some t, pt⟩).calls.getLast? =
      some (.ok (mainIsValid env c t)) := by
  rw [validate_main_eq env i pt c t h0 h1]
  split <;> rename_i h <;> simp_all [List.getLast?_append]

/-- When the assertions pass, no callback invocation delivers an error. -/
theorem erroredB_main (env : ValidateEnv) (i pt : Option String)
    (c t : Int) (h0 : t ≠ 0) (h1 : -1 ≤ t ∨ eternalTokensAllowed env = true) :
    erroredB (validate env ⟨i, some c, some t, pt⟩) = false := by
  rw [validate_main_eq env i pt c t h0 h1]
  split <;> by_cases hu : unresolvedPrincipal env ⟨i, some c, some t, pt⟩ = true <;>
    simp [hu, erroredB]

/-! Claim theorems. -/

/-- C1: for every access token whose `created` attribute is a valid Date
and whose `ttl` is strictly positive, `AccessToken.prototype.validate`
reports the token valid (the result its expiry computation delivers to
the callback) if and only if the elapsed seconds between now and
`created` are strictly less than `ttl`; when the elapsed seconds equal
`ttl` exactly, the token is reported invalid. -/
theorem claim_C1 (env : ValidateEnv) (tok : Token) (c t : Int)
    (hc : tok.created = some c) (ht : tok.ttl = some t) (hpos : 0 < t) :
    ((validate env tok).calls.getLast? = some (.ok true) ↔
      elapsedSeconds env c < (t : ℚ)) ∧
    (elapsedSeconds env c = (t : ℚ) →
      (validate env tok).calls.getLast? = some (.ok false)) := by
  obtain ⟨i, cr, tl, pt⟩ := tok
  simp only at hc ht
  subst hc; subst ht
  have h0 : t ≠ 0 := by omega
  have h1 : -1 ≤ t ∨ eternalTokensAllowed env = true := Or.inl (by omega)
  have hne : t ≠ -1 := by omega
  rw [validate_getLast env i pt c t h0 h1]
  unfold mainIsValid
  rw [if_neg hne]
  constructor
  · simp
  · intro he
    simp [he]

/-- C1 witness: a token created at epoch 0 with ttl 10 seconds is reported
valid 5 seconds later. -/
theorem claim_C1_wit :
    (validate envC1 tokC1).calls.getLast? = some (.ok true) :=
  (claim_C1 envC1 tokC1 0 10 rfl rfl (by decide)).1.mpr
    (by norm_num [elapsedSeconds, envC1])

/-- C2 counterexample: a token whose `created` is a valid Date and whose
`ttl` is present and nonzero (`ttl = -2`) still receives a hard error
from `validate` when eternal tokens are not allowed, so the hard-error
condition is not exactly the claimed three-way disjunction. -/
theorem claim_C2_cex :
    erroredB (validate envC2 tokC2) = true ∧
    tokC2.created ≠ none ∧ tokC2.ttl ≠ none ∧ tokC2.ttl ≠ some 0 := by
  decide

/-- C2 amended: `validate` delivers a hard error to the callback exactly
when `created` is not a valid Date, or `ttl` is absent, or `ttl` is
exactly 0, or additionally when eternal tokens are not allowed and
`ttl < -1`; in particular `ttl = 0` always produces a hard error. -/
theorem claim_C2 (env : ValidateEnv) (tok : Token) :
    erroredB (validate env tok) = true ↔
      (tok.created = none ∨ tok.ttl = none ∨ tok.ttl = some 0 ∨
        (eternalTokensAllowed env = false ∧ ∃ t, tok.ttl = some t ∧ t < -1)) := by
  obtain ⟨i, cr, tl, pt⟩ := tok
  cases cr with
  | none => simp [validate, erroredB]
  | some c =>
    cases tl with
    | none => simp [validate, erroredB]
    | some t =>
      rcases eq_or_ne t 0 with rfl | h0
      · simp [validate, erroredB]
      · by_cases he : eternalTokensAllowed env = true
        · have h1 : -1 ≤ t ∨ eternalTokensAllowed env = true := Or.inr he
          rw [erroredB_main env i pt c t h0 h1]
          simp [he, h0]
        · have he' : eternalTokensAllowed env = false := by
            simpa using he
          rcases lt_or_le t (-1) with hlt | hge
          · have hcond : (!(eternalTokensAllowed env) && decide (t < -1)) = true := by
              simp [he', hlt]
            simp only [validate, if_neg h0, hcond, if_pos rfl]
            constructor
            · intro _
              exact Or.inr (Or.inr (Or.inr ⟨he', t, rfl, hlt⟩))
            · intro _
              simp [erroredB]
          · have h1 : -1 ≤ t ∨ eternalTokensAllowed env = true := Or.inl hge
            rw [erroredB_main env i pt c t h0 h1]
            constructor
            · intro h
              exact absurd h (by simp)
            · rintro (h | h | h | ⟨-, t2, ht2, hlt2⟩)
              · exact absurd h (by simp)
              · exact absurd h (by simp)
              · exact absurd h (by simp [h0])
              · simp only [Option.some.injEq] at ht2
                omega

/-- C3: a token with `ttl = -1` is reported valid by `validate` exactly
when the owning principal model (the target of the `user` relation, from
which line 244 computes the flag) allows eternal tokens; and when eternal
tokens are not allowed, any `ttl` strictly less than -1 raises a hard
validation error rather than a plain invalid result. -/
theorem claim_C3 (env : ValidateEnv) (tok : Token) :
    (∀ c, tok.created = some c → tok.ttl = some (-1) →
      (validate env tok).calls.getLast? = some (.ok (eternalTokensAllowed env))) ∧
    (∀ c t, tok.created = some c → tok.ttl = some t → t < -1 →
      eternalTokensAllowed env = false →
      (validate env tok).calls = [.err "token.ttl must be >= -1"]) := by
  obtain ⟨i, cr, tl, pt⟩ := tok
  constructor
  · intro c hc ht
    simp only at hc ht
    subst hc; subst ht
    rw [validate_getLast env i pt c (-1) (by decide) (Or.inl (by decide))]
    unfold mainIsValid
    simp
  · intro c t hc ht hlt he
    simp only at hc ht
    subst hc; subst ht
    have h0 : t ≠ 0 := by omega
    have hcond : (!(eternalTokensAllowed env) && decide (t < -1)) = true := by
      simp [he, hlt]
    simp [validate, h0, hcond]

/-- C3 witness: an eternal token under a principal model allowing eternal
tokens is reported valid; with no principal model allowing them,
`ttl = -5` produces the hard `>= -1` assertion error. -/
theorem claim_C3_wit :
    (validate envC3a tokC3a).calls.getLast? = some (.ok true) ∧
    (validate envC3b tokC3b).calls = [.err "token.ttl must be >= -1"] := by
  constructor
  · have h := (claim_C3 envC3a tokC3a).1 0 rfl rfl
    simpa [eternalTokensAllowed, envC3a] using h
  · exact (claim_C3 envC3b tokC3b).2 0 (-5) rfl rfl (by decide) rfl

/-- C4: whenever the expiry computation of `validate` determines the token
invalid, the token record is destroyed before invalidity is reported; a
token whose expiry computation determines it valid is never destroyed
(the carve-out for an unresolved principal holds because that negative
report happens without the expiry computation being invalid). -/
theorem claim_C4 (env : ValidateEnv) (tok : Token) :
    ((validate env tok).calls.getLast? = some (.ok false) →
      (validate env tok).destroyed = true) ∧
    ((validate env tok).calls.getLast? = some (.ok true) →
      (validate env tok).destroyed = false) := by
  obtain ⟨i, cr, tl, pt⟩ := tok
  cases cr with
  | none => simp [validate]
  | some c =>
    cases tl with
    | none => simp [validate]
    | some t =>
      rcases eq_or_ne t 0 with rfl | h0
      · simp [validate]
      · by_cases hcond : (!(eternalTokensAllowed env) && decide (t < -1)) = true
        · simp [validate, h0, hcond]
        · have h1 : -1 ≤ t ∨ eternalTokensAllowed env = true := by
            simp only [Bool.and_eq_true, Bool.not_eq_true', decide_eq_true_eq] at hcond
            by_cases he : eternalTokensAllowed env = true
            · exact Or.inr he
            · have he' : eternalTokensAllowed env = false := by simpa using he
              left
              by_contra hnot
              exact hcond ⟨he', by omega⟩
          rw [validate_main_eq env i pt c t h0 h1]
          split <;>
            by_cases hu : unresolvedPrincipal env ⟨i, some c, some t, pt⟩ = true <;>
            simp [hu, List.getLast?_append]

/-- C4 witness: an expired token (10 seconds ttl, 20 seconds elapsed) is
destroyed; the same token 5 seconds after creation is not destroyed. -/
theorem claim_C4_wit :
    (validate envC4 tokC4).destroyed = true ∧
    (validate envC4b tokC4).destroyed = false := by
  constructor
  · exact (claim_C4 envC4 tokC4).1
      (by simp [validate, mainIsValid_eq, unresolvedPrincipal, eternalTokensAllowed,
        envC4, tokC4])
  · exact (claim_C4 envC4b tokC4).2
      (by simp [validate, mainIsValid_eq, unresolvedPrincipal, eternalTokensAllowed,
        envC4b, tokC4])

/-- C5: `AccessToken.resolve` looks the id up in the store; if no record
exists the callback receives neither error nor token; if the record
exists and its validation delivers invalid, the callback receives the
`Invalid Access Token` error with code `INVALID_TOKEN` and status 401;
if validation delivers valid, the callback receives that token. -/
theorem claim_C5 (env : ValidateEnv) (store : List (String × Token)) (id : String) :
    (findById store id = none → resolve env store id = [.noToken]) ∧
    (∀ tok, findById store id = some tok →
      ((validate env tok).calls = [.ok true] →
        resolve env store id = [.ok tok]) ∧
      ((validate env tok).calls = [.ok false] →
        resolve env store id =
          [.err "Invalid Access Token" (some "INVALID_TOKEN") (some 401)])) := by
  refine ⟨fun h => by simp [resolve, h], fun tok h => ⟨fun h2 => ?_, fun h2 => ?_⟩⟩
  · simp [resolve, h, h2, resolveHandler]
  · simp [resolve, h, h2, resolveHandler, invalidTokenError]

/-- C5 witness: an unknown id yields the bare no-token callback, a stored
valid token is returned, and a stored expired token surfaces the
401 `INVALID_TOKEN` error. -/
theorem claim_C5_wit :
    resolve envC5 storeC5 "missing" = [.noToken] ∧
    resolve envC5 storeC5 "good" = [.ok tokC5good] ∧
    resolve envC5 storeC5 "bad" =
      [.err "Invalid Access Token" (some "INVALID_TOKEN") (some 401)] := by
  refine ⟨(claim_C5 envC5 storeC5 "missing").1 (by decide), ?_, ?_⟩
  · exact ((claim_C5 envC5 storeC5 "good").2 tokC5good (by decide)).1
      (by simp [validate, mainIsValid_eq, unresolvedPrincipal, eternalTokensAllowed,
        envC5, tokC5good])
  · exact ((claim_C5 envC5 storeC5 "bad").2 tokC5bad (by decide)).2
      (by simp [validate, mainIsValid_eq, unresolvedPrincipal, eternalTokensAllowed,
        envC5, tokC5bad])

/-- C6: when the token carries a `principalType` — a truthy one, as the
guard `if (this.principalType)` at line 250 requires, so a non-empty
name — that the registry cannot resolve, `validate` reports `false` to
its callback as its first invocation, and no invocation carries an
error, so this is a normal negative result (the remaining hypotheses
state that the structural assertions of lines 234-246 pass). -/
theorem claim_C6 (env : ValidateEnv) (tok : Token) (p : String) (c t : Int)
    (hp : tok.principalType = some p) (hpt : p ≠ "")
    (hfind : findModel env.registry p = none)
    (hc : tok.created = some c) (ht : tok.ttl = some t) (h0 : t ≠ 0)
    (h1 : -1 ≤ t ∨ eternalTokensAllowed env = true) :
    (validate env tok).calls.head? = some (.ok false) ∧
    erroredB (validate env tok) = false := by
  obtain ⟨i, cr, tl, pt⟩ := tok
  simp only at hp hc ht
  subst hp; subst hc; subst ht
  have hu : unresolvedPrincipal env ⟨i, some c, some t, some p⟩ = true := by
    simp [unresolvedPrincipal, hfind, bne_iff_ne, hpt]
  refine ⟨?_, erroredB_main env i (some p) c t h0 h1⟩
  rw [validate_main_eq env i (some p) c t h0 h1]
  split <;> simp [hu]

/-- C6 witness: a token carrying `principalType = "Customer"` against an
empty registry gets `cb(null, false)` first and no error. -/
theorem claim_C6_wit :
    (validate envC6 tokC6).calls.head? = some (.ok false) ∧
    erroredB (validate envC6 tokC6) = false :=
  claim_C6 envC6 tokC6 "Customer" 0 10 rfl (by decide) rfl rfl rfl (by decide)
    (Or.inl (by decide))

/-- C7 counterexample: `req.params.access_token` holds a non-string value
while `req.body.access_token` holds the string `"tok"`; the claimed
"first string-typed match across route params, body and query" would be
`"tok"`, but `getIdForRequest` returns no token, because the non-string
value found first for that name causes the whole name to be skipped. -/
theorem claim_C7_cex :
    getIdForRequest (fun s => s) reqC7 {} = none ∧
    reqC7.params "access_token" = some .other ∧
    reqC7.body "access_token" = some (.str "tok") ∧
    effectiveParams {} = ["access_token"] := by
  decide

/-- C7 amended: the search runs params, then headers, then signed cookies,
each in configured-then-default name order; for each parameter name only
the first defined value among route params, body and query is examined —
it is returned when string-typed, and otherwise the name is skipped
without consulting the later sources for that name; header string values
are returned after Bearer/Basic processing; the result is null when
nothing matches. -/
theorem claim_C7 (d : String → String) (req : Req) (opts : TokenLookupOptions) :
    (∀ v, firstParamMatch req (effectiveParams opts) = some v →
      getIdForRequest d req opts = some v) ∧
    (firstParamMatch req (effectiveParams opts) = none →
      ∀ v, firstHeaderMatch d opts req (effectiveHeaders opts) = some v →
        getIdForRequest d req opts = some v) ∧
    (firstParamMatch req (effectiveParams opts) = none →
      firstHeaderMatch d opts req (effectiveHeaders opts) = none →
      getIdForRequest d req opts =
        (match req.signedCookies with
         | some sc => firstCookieMatch sc (effectiveCookies opts)
         | none => none)) ∧
    (∀ n rest s, lookupParamValue req n = some (.str s) →
      firstParamMatch req (n :: rest) = some s) ∧
    (∀ n rest, lookupParamValue req n = some .other →
      firstParamMatch req (n :: rest) = firstParamMatch req rest) ∧
    (∀ n rest, lookupParamValue req n = none →
      firstParamMatch req (n :: rest) = firstParamMatch req rest) := by
  refine ⟨?_, ?_, ?_, ?_, ?_, ?_⟩
  · intro v h
    simp [getIdForRequest, h]
  · intro h v h2
    simp [getIdForRequest, h, h2]
  · intro h h2
    simp [getIdForRequest, h, h2]
  · intro n rest s h
    simp [firstParamMatch, h]
  · intro n rest h
    simp [firstParamMatch, h]
  · intro n rest h
    simp [firstParamMatch, h]

/-- C7 witness: a string-typed query value for the default name is
returned, and a name whose first defined value is non-string is skipped. -/
theorem claim_C7_wit :
    getIdForRequest (fun s => s) reqC7w {} = some "w1" ∧
    firstParamMatch reqC7 ["access_token"] = firstParamMatch reqC7 [] := by
  constructor
  · exact (claim_C7 (fun s => s) reqC7w {}).1 "w1" (by decide)
  · exact (claim_C7 (fun s => s) reqC7 {}).2.2.2.2.1 "access_token" [] (by decide)

/-- C8: with the `bearerTokenBase64Encoded` option not supplied, a header
value starting with `Bearer ` has the prefix stripped but the remainder
is NOT base64-decoded — the raw remainder is returned for every possible
decoder — contradicting the documented default of `true` (source lines
89-91); decoding happens only when the option is passed as `true`. -/
theorem claim_C8 (d : String → String) :
    getIdForRequest d reqC8 {} = some "dG9rZW4=" ∧
    getIdForRequest d reqC8 { bearerTokenBase64Encoded := some false } =
      some "dG9rZW4=" ∧
    getIdForRequest d reqC8 { bearerTokenBase64Encoded := some true } =
      some (d "dG9rZW4=") := by
  refine ⟨?_, ?_, ?_⟩ <;>
    simp [getIdForRequest, effectiveParams, effectiveHeaders, effectiveCookies,
      firstParamMatch, firstHeaderMatch, lookupParamValue, reqC8,
      processHeaderValue, isBearer, isBasic, strDrop]

/-- C9 counterexample: the header `Basic YTpiYgpj` decodes to `a:bb\nc`,
which has a colon; the claimed split-and-return-the-longer-part would
yield `bb\nc`, but the regex `/^([^:]*):(.*)$/` fails to match (the dot
does not match the line terminator after the first colon), so the code
returns the entire decoded string. -/
theorem claim_C9_cex :
    processHeaderValue dC9x {} "Basic YTpiYgpj" = some "a:bb\nc" ∧
    processHeaderValue dC9x {} "Basic YTpiYgpj" ≠ some "bb\nc" := by
  decide

/-- C9 amended: a header value matching `Basic ` case-insensitively is
base64-decoded; when the decoded string has a colon with no line
terminator after the first colon, it is split at that colon and (when
the two parts have different lengths) the longer part is returned as
the token id; when the regex fails — no colon, or a line terminator
after the first colon — the whole decoded string is returned; a header
whose value is the empty string is skipped and the search continues to
the next header name. -/
theorem claim_C9 (d : String → String) (opts : TokenLookupOptions) :
    (∀ v a b, v ≠ "" → isBearer v = false → isBasic v = true →
      breakAtColon (d (strDrop v 6)).data = some (a, b) →
      ((b.length > a.length → processHeaderValue d opts v = some ⟨b⟩) ∧
       (a.length > b.length → processHeaderValue d opts v = some ⟨a⟩))) ∧
    (∀ v, v ≠ "" → isBearer v = false → isBasic v = true →
      breakAtColon (d (strDrop v 6)).data = none →
      processHeaderValue d opts v = some (d (strDrop v 6))) ∧
    (∀ req h rest, req.header h = some (.str "") →
      firstHeaderMatch d opts req (h :: rest) =
        firstHeaderMatch d opts req rest) := by
  refine ⟨?_, ?_, ?_⟩
  · intro v a b hne hbear hbasic hsplit
    constructor
    · intro hlen
      simp [processHeaderValue, hne, hbear, hbasic, hsplit, hlen]
    · intro hlen
      have hnb : ¬(b.length > a.length) := by omega
      simp [processHeaderValue, hne, hbear, hbasic, hsplit, hnb]
  · intro v hne hbear hbasic hsplit
    simp [processHeaderValue, hne, hbear, hbasic, hsplit]
  · intro req h rest hh
    simp [firstHeaderMatch, hh, processHeaderValue]

/-- C9 witness: `Basic dG9rOmEyYjJjMw==` decodes to `tok:a2b2c3` and the
longer right-hand part is returned; `Basic YTpiYgpj` decodes to a string
with a line terminator after the first colon and comes back whole; an
empty `X-Access-Token` header is skipped and the search continues with
the remaining names. -/
theorem claim_C9_wit :
    processHeaderValue dC9 {} "Basic dG9rOmEyYjJjMw==" = some "a2b2c3" ∧
    processHeaderValue dC9x {} "Basic YTpiYgpj" = some "a:bb\nc" ∧
    firstHeaderMatch dC9 {} reqC9 ["X-Access-Token", "authorization"] =
      firstHeaderMatch dC9 {} reqC9 ["authorization"] := by
  refine ⟨?_, ?_, ?_⟩
  · have h := ((claim_C9 dC9 {}).1 "Basic dG9rOmEyYjJjMw==" "tok".data "a2b2c3".data
      (by decide) (by decide) (by decide) (by decide)).1 (by decide)
    simpa using h
  · have h := (claim_C9 dC9x {}).2.1 "Basic YTpiYgpj"
      (by decide) (by decide) (by decide) (by decide)
    simpa using h
  · exact (claim_C9 dC9 {}).2.2 reqC9 "X-Access-Token" ["authorization"] (by decide)

/-- C10 counterexample: an instance whose `id` attribute is set to the
empty string is a full instance with an id already set, yet the
before-save hook overwrites that id with the freshly generated one,
because the hook tests JS truthiness of `ctx.instance.id`. -/
theorem claim_C10_cex :
    instC10.id = some "" ∧
    beforeSave "fresh-generated-id" ⟨some instC10⟩ =
      ⟨some ⟨some "fresh-generated-id", [("userId", "u1")]⟩⟩ := by
  decide

/-- C10 amended: the before-save hook generates and assigns a fresh token
id only when a full instance is being saved whose id is absent or falsy
(the empty string); for every partial update, and for every instance
whose id is a non-empty string, the hook leaves the context unchanged;
and when it does assign, only the id attribute changes. -/
theorem claim_C10 (g : String) (ctx : SaveCtx) :
    (ctx.inst = none → beforeSave g ctx = ctx) ∧
    (∀ i s, ctx.inst = some i → i.id = some s → s ≠ "" →
      beforeSave g ctx = ctx) ∧
    (∀ i, ctx.inst = some i → idTruthy i.id = false →
      beforeSave g ctx = ⟨some ⟨some g, i.attrs⟩⟩) := by
  obtain ⟨inst⟩ := ctx
  refine ⟨?_, ?_, ?_⟩
  · intro h
    simp only at h
    subst h
    simp [beforeSave]
  · intro i s hi hs hne
    simp only at hi
    subst hi
    simp [beforeSave, idTruthy, hs, hne]
  · intro i hi hfalse
    simp only at hi
    subst hi
    simp [beforeSave, hfalse]

/-- C10 witness: a partial update and a full instance with a non-empty id
are left unchanged; a full instance with no id gets exactly the id
assigned. -/
theorem claim_C10_wit :
    beforeSave "g2" ⟨none⟩ = ⟨none⟩ ∧
    beforeSave "g2" ⟨some ⟨some "keep", [("k", "v")]⟩⟩ =
      ⟨some ⟨some "keep", [("k", "v")]⟩⟩ ∧
    beforeSave "g2" ⟨some ⟨none, [("k", "v")]⟩⟩ =
      ⟨some ⟨some "g2", [("k", "v")]⟩⟩ := by
  refine ⟨(claim_C10 "g2" ⟨none⟩).1 rfl, ?_, ?_⟩
  · exact (claim_C10 "g2" ⟨some ⟨some "keep", [("k", "v")]⟩⟩).2.1
      ⟨some "keep", [("k", "v")]⟩ "keep" rfl rfl (by decide)
  · exact (claim_C10 "g2" ⟨some ⟨none, [("k", "v")]⟩⟩).2.2
      ⟨none, [("k", "v")]⟩ rfl (by decide)

end LoopbackLite
